import Mathlib

/-!
Shallow embedding of `streamlit_app.py` (Advanced SEO Content Optimizer).

The program is a single-threaded Streamlit script.  Its externally visible
behaviour per button press is: read four text inputs, fetch page content
through the Jina reader service, call the OpenRouter chat API twice
(analysis, then recommendations), and store the three resulting strings in
the session state.  We model the external world (HTTP responses and the
presence of the `OPENROUTER_API_KEY` environment variable) as explicit
parameters, and record side effects (HTTP requests issued, `time.sleep`
calls, Streamlit `success`/`error`/`warning` messages) as explicit values,
so that every theorem below is about the deterministic function the script
computes over a given world.
-/

/-- Outcome of `http.get(...)` followed by `response.raise_for_status()`:
either a 2xx response with its body text, or a raised
`requests.exceptions.RequestException` (network error, timeout, or the
`HTTPError` that `raise_for_status` raises on a non-2xx status), carrying
the exception's string rendering `str(e)`. -/
inductive HttpOutcome
| success (text : String)
| exn (msg : String)
deriving DecidableEq

/-- Outcome of a bare `requests.post(...)` call: either a raised exception,
or a response with its status code, its body text, and the value of
`response.json()['choices'][0]['message']['content']` when that expression
evaluates without raising (`none` models a malformed payload for which the
JSON decoding or the key lookups would raise). -/
inductive PostOutcome
| exn (msg : String)
| response (status : Nat) (text : String) (choicesContent : Option String)
deriving DecidableEq

/-- Observable side effects of one script run: outbound HTTP requests
(attempted), and `time.sleep` calls with their duration in seconds. -/
inductive Event
| httpGet (url : String)
| httpPost (url : String) (body : String)
| sleep (seconds : Nat)
deriving DecidableEq

/-- Streamlit user-facing signals emitted by the script:
`st.success`, `st.error`, `st.warning`. -/
inductive Msg
| success (text : String)
| error (text : String)
| warning (text : String)
deriving DecidableEq

/-- Python's `s.startswith(p)`: `p` is a prefix of the character sequence
of `s`. -/
def pyStartsWith (s p : String) : Bool := p.data.isPrefixOf s.data

/-- Python truthiness of an `Optional[str]` value (`None` and `""` are
falsy, every other string truthy), as used by `if not OPENROUTER_API_KEY`,
`if seo_analysis:` and `if recommendations:`. -/
def truthyStr : Option String → Bool
| none => false
| some s => s != ""

/-- Value of an `Optional[str]` that has been checked truthy. -/
def orEmpty : Option String → String
| none => ""
| some s => s

/-- Substring test: does `marker` occur anywhere in `s`?  Used only in
theorem statements, to express that a string carries no "unavailable"
marker. -/
def mentionsMarker (s marker : String) : Bool :=
  s.data.tails.any (fun t => marker.data.isPrefixOf t)

/-- Configuration of `urllib3.util.retry.Retry` as built at module level:
`Retry(total=3, status_forcelist=[429, 500, 502, 503, 504],
allowed_methods=["HEAD", "GET", "OPTIONS"], backoff_factor=1)`. -/
structure RetryStrategy where
  total : Nat
  status_forcelist : List Nat
  allowed_methods : List String
  backoff_factor : Nat
deriving DecidableEq

/-- Module-level `retry_strategy` from the source (lines 30-35); it is
mounted on the `http` session used by `get_jina_reader_content`. -/
def retry_strategy : RetryStrategy :=
  { total := 3
    status_forcelist := [429, 500, 502, 503, 504]
    allowed_methods := ["HEAD", "GET", "OPTIONS"]
    backoff_factor := 1 }

/-- Modelled from urllib3's documented `Retry.get_backoff_time` semantics
(the library is external to this repository): the sleep before retry
number `consecutiveErrors` is `0` while at most one request has been made,
and `backoff_factor * 2 ^ (consecutiveErrors - 1)` afterwards. -/
def get_backoff_time (s : RetryStrategy) (consecutiveErrors : Nat) : Nat :=
  if consecutiveErrors ≤ 1 then 0 else s.backoff_factor * 2 ^ (consecutiveErrors - 1)

/-- Reader-service URL built at line 65: `f"https://r.jina.ai/{url}"`. -/
def jina_url (url : String) : String := "https://r.jina.ai/" ++ url

/-- Marker string that `main` uses at line 232 to classify a fetch result
as failed: `st.session_state.content.startswith("Failed to fetch content")`. -/
def failMarker : String := "Failed to fetch content"

/-- Embedding of `get_jina_reader_content(url)` (lines 64-72).  Returns the
string the Python function returns, paired with the trace of side effects:
the GET to the reader service always happens; on success (no exception
from `http.get` / `raise_for_status`) the function sleeps 3 seconds and
returns `response.text`; on a `requests.RequestException` it returns
`"Failed to fetch content: " + str(e)` without sleeping. -/
def get_jina_reader_content (url : String) (outcome : HttpOutcome) : String × List Event :=
  match outcome with
  | HttpOutcome.success text =>
      (text, [Event.httpGet (jina_url url), Event.sleep 3])
  | HttpOutcome.exn msg =>
      ("Failed to fetch content: " ++ msg, [Event.httpGet (jina_url url)])

/-- OpenRouter endpoint used by both API calls. -/
def openrouter_url : String := "https://openrouter.ai/api/v1/chat/completions"

/-- Prompt built by `analyze_seo_data` (lines 80-120), an f-string over the
three pasted data blocks. -/
def analyze_prompt (organic_kw_ranks semrush_site_audit technical_seo_audit : String) : String :=
  "Analyze the following SEO data from organic keyword rankings, SEMrush site audit, and technical SEO audit. Provide a detailed analysis and prioritization of keywords and opportunities.\n\nOrganic Keyword Rankings:\n<organic_kw_ranks>\n"
  ++ organic_kw_ranks
  ++ "\n</organic_kw_ranks>\n\nSEMrush Site Audit:\n<semrush_site_audit>\n"
  ++ semrush_site_audit
  ++ "\n</semrush_site_audit>\n\nTechnical SEO Audit:\n<technical_seo_audit>\n"
  ++ technical_seo_audit
  ++ "\n</technical_seo_audit>\n\nProvide your analysis in the following format:\n\n<seo_analysis>\n1. Key Issues and Opportunities:\n   - Summary of critical issues from the SEMrush and technical SEO audits\n   - Top keyword opportunities based on current rankings, volume, and difficulty\n\n2. Keyword Clustering and Prioritization:\n   - Grouped keywords by theme and intent\n   - Prioritized list of keywords to target\n\n3. Content Gap Analysis:\n   - Topics and themes missing from the current content based on keyword data\n   - Suggestions for new content topics\n\n4. On-Page Optimization Priorities:\n   - Elements needing immediate attention (titles, meta descriptions, headings) based on the audit reports\n   - Suggestions for content structure improvements\n\n5. Technical SEO Insights:\n   - Key technical issues identified\n   - Prioritized list of technical improvements\n</seo_analysis>\n"

/-- Prompt built by `generate_recommendations` (lines 149-193). -/
def recommend_prompt (url content seo_analysis : String) : String :=
  "Based on the following SEO analysis and the current page content, generate specific recommendations for optimizing the page at "
  ++ url
  ++ ".\n\nSEO Analysis:\n<seo_analysis>\n"
  ++ seo_analysis
  ++ "\n</seo_analysis>\n\nCurrent page content:\n<current_content>\n"
  ++ content
  ++ "\n</current_content>\n\nProvide your recommendations in the following format:\n\n<page_recommendations>\n1. Page Title:\n   - Current: [current title]\n   - Recommended: [proposed title]\n   - Explanation: [brief justification]\n\n2. Meta Description:\n   - Current: [current meta description]\n   - Recommended: [proposed meta description]\n   - Explanation: [brief justification]\n\n3. Heading Structure:\n   - Current structure\n   - Recommended structure\n   - Explanations for changes\n\n4. Content Additions/Improvements:\n   - List of suggested additions or modifications\n   - Target keywords for each suggestion\n\n5. Internal Linking:\n   - Suggested internal links to add\n   - Anchor text recommendations\n\n6. Additional On-Page Optimizations:\n   - Other specific recommendations (e.g., image alt text, schema markup)\n\n7. Technical Improvements:\n   - List of technical SEO improvements specific to this page\n</page_recommendations>\n"

/-- Result of one call to `analyze_seo_data` or `generate_recommendations`:
the Python return value when the function returns (`result`, where `none`
is Python's `None`), the Streamlit messages it emitted, the HTTP requests
it issued, and, when the call raised instead of returning, the uncaught
exception (`requests.post` raising on a transport failure, or the
`response.json()['choices'][0]['message']['content']` chain raising on a
malformed 200 payload — neither is wrapped in any try/except). -/
structure ApiCall where
  result : Option String
  messages : List Msg
  events : List Event
  uncaught : Option String
deriving DecidableEq

/-- Embedding of `analyze_seo_data(organic_kw_ranks, semrush_site_audit,
technical_seo_audit)` (lines 74-141).  `apiKey` is the value of
`os.getenv('OPENROUTER_API_KEY')` (`none` when unset). -/
def analyze_seo_data (apiKey : Option String)
    (organic_kw_ranks semrush_site_audit technical_seo_audit : String)
    (outcome : PostOutcome) : ApiCall :=
  if !(truthyStr apiKey) then
    { result := none
      messages := [Msg.error "OpenRouter API key not found. Please set the OPENROUTER_API_KEY environment variable."]
      events := []
      uncaught := none }
  else
    match outcome with
    | PostOutcome.exn msg =>
        { result := none
          messages := []
          events := [Event.httpPost openrouter_url (analyze_prompt organic_kw_ranks semrush_site_audit technical_seo_audit)]
          uncaught := some msg }
    | PostOutcome.response status text choicesContent =>
        if status = 200 then
          match choicesContent with
        | some c =>
            { result := some c
              messages := []
              events := [Event.httpPost openrouter_url (analyze_prompt organic_kw_ranks semrush_site_audit technical_seo_audit)]
              uncaught := none }
        | none =>
            { result := none
              messages := []
              events := [Event.httpPost openrouter_url (analyze_prompt organic_kw_ranks semrush_site_audit technical_seo_audit)]
              uncaught := some "KeyError: malformed response payload" }
        else
          { result := none
            messages := [Msg.error ("Error from OpenRouter API: " ++ toString status ++ " - " ++ text)]
            events := [Event.httpPost openrouter_url (analyze_prompt organic_kw_ranks semrush_site_audit technical_seo_audit)]
            uncaught := none }

/-- Embedding of `generate_recommendations(url, content, seo_analysis)`
(lines 143-214); identical control flow to `analyze_seo_data` with its own
prompt. -/
def generate_recommendations (apiKey : Option String)
    (url content seo_analysis : String)
    (outcome : PostOutcome) : ApiCall :=
  if !(truthyStr apiKey) then
    { result := none
      messages := [Msg.error "OpenRouter API key not found. Please set the OPENROUTER_API_KEY environment variable."]
      events := []
      uncaught := none }
  else
    match outcome with
    | PostOutcome.exn msg =>
        { result := none
          messages := []
          events := [Event.httpPost openrouter_url (recommend_prompt url content seo_analysis)]
          uncaught := some msg }
    | PostOutcome.response status text choicesContent =>
        if status = 200 then
          match choicesContent with
        | some c =>
            { result := some c
              messages := []
              events := [Event.httpPost openrouter_url (recommend_prompt url content seo_analysis)]
              uncaught := none }
        | none =>
            { result := none
              messages := []
              events := [Event.httpPost openrouter_url (recommend_prompt url content seo_analysis)]
              uncaught := some "KeyError: malformed response payload" }
        else
          { result := none
            messages := [Msg.error ("Error from OpenRouter API: " ++ toString status ++ " - " ++ text)]
            events := [Event.httpPost openrouter_url (recommend_prompt url content seo_analysis)]
            uncaught := none }

/-- The four user inputs read by `main` (lines 222-225): the URL text
input and the three pasted data text areas. -/
structure Inputs where
  url : String
  organic_kw_ranks : String
  semrush_site_audit : String
  technical_seo_audit : String
deriving DecidableEq

/-- The stored results in `st.session_state` that a run can modify:
`content`, `seo_analysis`, `recommendations`.  (The session fields
`organic_kw_ranks` / `semrush_site_audit` / `technical_seo_audit` are
overwritten from the text-area widgets on every rerun, lines 223-225, so
they always mirror `Inputs` and carry no independent state.) -/
structure SessionState where
  content : String
  seo_analysis : String
  recommendations : String
deriving DecidableEq

/-- Session state as initialized at lines 11-22: all fields empty. -/
def initialSession : SessionState :=
  { content := "", seo_analysis := "", recommendations := "" }

/-- The external world one button press runs against: the environment
variable `OPENROUTER_API_KEY`, and the outcome each of the three outbound
HTTP calls would have if issued. -/
structure World where
  apiKey : Option String
  fetch : HttpOutcome
  analyze : PostOutcome
  recommend : PostOutcome
deriving DecidableEq

/-- Everything observable about one button-press run of `main`:
the session state afterwards, the Streamlit messages emitted in order, the
side-effect trace, and the exception that escaped the script run if one
did (Streamlit session state keeps the assignments made before the raise). -/
structure RunResult where
  state : SessionState
  messages : List Msg
  events : List Event
  uncaught : Option String
deriving DecidableEq

/-- Embedding of the `st.button('Analyze and Generate Recommendations')`
branch of `main` (lines 227-255), the whole pipeline of one run:
input-presence check, content fetch, fetch-failure classification by the
`"Failed to fetch content"` string prefix, SEO analysis, recommendations,
with the corresponding session-state assignments and messages. -/
def main_run (prev : SessionState) (inp : Inputs) (w : World) : RunResult :=
  if inp.url != "" && inp.organic_kw_ranks != "" && inp.semrush_site_audit != "" && inp.technical_seo_audit != "" then
    let fetched := get_jina_reader_content inp.url w.fetch
    let st1 : SessionState := { prev with content := fetched.1 }
    if fetched.1 != "" && !(pyStartsWith fetched.1 failMarker) then
      let m0 := [Msg.success "Content fetched successfully!"]
      let call1 := analyze_seo_data w.apiKey inp.organic_kw_ranks inp.semrush_site_audit inp.technical_seo_audit w.analyze
      match call1.uncaught with
      | some e =>
          { state := st1
            messages := m0 ++ call1.messages
            events := fetched.2 ++ call1.events
            uncaught := some e }
      | none =>
          if truthyStr call1.result then
            let sa := orEmpty call1.result
            let st2 : SessionState := { st1 with seo_analysis := sa }
            let m1 := m0 ++ call1.messages ++ [Msg.success "SEO data analyzed successfully!"]
            let call2 := generate_recommendations w.apiKey inp.url fetched.1 sa w.recommend
            match call2.uncaught with
            | some e =>
                { state := st2
                  messages := m1 ++ call2.messages
                  events := fetched.2 ++ call1.events ++ call2.events
                  uncaught := some e }
            | none =>
                if truthyStr call2.result then
                  { state := { st2 with recommendations := orEmpty call2.result }
                    messages := m1 ++ call2.messages ++ [Msg.success "Recommendations generated successfully!"]
                    events := fetched.2 ++ call1.events ++ call2.events
                    uncaught := none }
                else
                  { state := st2
                    messages := m1 ++ call2.messages ++ [Msg.error "Failed to generate recommendations."]
                    events := fetched.2 ++ call1.events ++ call2.events
                    uncaught := none }
          else
            { state := st1
              messages := m0 ++ call1.messages ++ [Msg.error "Failed to analyze SEO data."]
              events := fetched.2 ++ call1.events
              uncaught := none }
    else
      { state := st1
        messages := [Msg.error fetched.1]
        events := fetched.2
        uncaught := none }
  else
    { state := prev
      messages := [Msg.warning "Please enter a URL and paste all required data"]
      events := []
      uncaught := none }

/-- Total seconds slept in a trace. -/
def sleepTotal (es : List Event) : Nat :=
  es.foldl (fun acc e => match e with | Event.sleep s => acc + s | _ => acc) 0

/-- Test for an outbound POST event. -/
def isPost : Event → Bool
| Event.httpPost _ _ => true
| _ => false

/-- Test for an outbound GET event. -/
def isGet : Event → Bool
| Event.httpGet _ => true
| _ => false

/-- Number of POST requests in a trace. -/
def countPosts (es : List Event) : Nat := (es.filter isPost).length

/-- Number of GET requests in a trace. -/
def countGets (es : List Event) : Nat := (es.filter isGet).length

/-- Concrete non-empty inputs used by the concrete-run theorems below. -/
def inpEx : Inputs :=
  { url := "https://example.com"
    organic_kw_ranks := "kw ranks"
    semrush_site_audit := "site audit"
    technical_seo_audit := "tech audit" }

/-- World in which every external call succeeds. -/
def worldAllOk : World :=
  { apiKey := some "sk-test"
    fetch := HttpOutcome.success "PAGE BODY"
    analyze := PostOutcome.response 200 "ok" (some "ANALYSIS")
    recommend := PostOutcome.response 200 "ok" (some "RECS") }

/-- World identical to `worldAllOk` except that the content fetch raises a
transport error; both OpenRouter calls would still succeed if issued. -/
def worldFetchFail : World := { worldAllOk with fetch := HttpOutcome.exn "boom" }

/-- World identical to `worldAllOk` except that the analysis call returns
HTTP 503; the recommendations call would still succeed if issued. -/
def worldAnalyzeFail : World :=
  { worldAllOk with analyze := PostOutcome.response 503 "Service Unavailable" none }

/-- World in which the fetch succeeds at the transport level but the page
body itself happens to begin with the in-band failure marker string. -/
def worldBodyCollision : World :=
  { worldAllOk with fetch := HttpOutcome.success "Failed to fetch content: how we monitor outages" }

/-- The failure string built at line 72 always starts with the marker that
`main` tests at line 232. -/
theorem pyStartsWith_failure (msg : String) :
    pyStartsWith ("Failed to fetch content: " ++ msg) failMarker = true := by
  have h2 : ("Failed to fetch content: ").data = failMarker.data ++ [':', ' '] := rfl
  simp only [pyStartsWith, List.isPrefixOf_iff_prefix, String.data_append, h2,
    List.append_assoc]
  exact List.prefix_append _ _

/-- A Python-truthy `Optional[str]` is a non-empty string. -/
theorem truthyStr_eq_true {o : Option String} (h : truthyStr o = true) :
    ∃ s, o = some s ∧ s ≠ "" := by
  cases o with
  | none => simp [truthyStr] at h
  | some s => exact ⟨s, rfl, by simpa [truthyStr, bne_iff_ne] using h⟩

/-- `analyze_seo_data` returns a string (rather than `None` or raising)
exactly on a 200 response whose payload has the expected shape. -/
theorem analyze_result_some (key : Option String) (a b c s : String) (o : PostOutcome)
    (h : (analyze_seo_data key a b c o).result = some s) :
    ∃ t, o = PostOutcome.response 200 t (some s) := by
  unfold analyze_seo_data at h
  split at h
  · simp at h
  · cases o with
    | exn m => simp at h
    | response status t cc =>
      by_cases h200 : status = 200
      · subst h200
        cases cc with
        | none => simp at h
        | some v =>
          simp only [if_pos rfl] at h
          simp at h
          exact ⟨t, by rw [h]⟩
      · simp [h200] at h

/-- Counting POST requests distributes over trace concatenation. -/
theorem countPosts_append (a b : List Event) :
    countPosts (a ++ b) = countPosts a + countPosts b := by
  simp [countPosts, List.filter_append]

/-- Counting GET requests distributes over trace concatenation. -/
theorem countGets_append (a b : List Event) :
    countGets (a ++ b) = countGets a + countGets b := by
  simp [countGets, List.filter_append]

/-- The content fetch issues no POST request. -/
theorem countPosts_jina (url : String) (o : HttpOutcome) :
    countPosts (get_jina_reader_content url o).2 = 0 := by
  cases o <;> rfl

/-- The content fetch issues exactly one GET request per call. -/
theorem countGets_jina (url : String) (o : HttpOutcome) :
    countGets (get_jina_reader_content url o).2 = 1 := by
  cases o <;> rfl

/-- One `analyze_seo_data` call issues at most one POST request. -/
theorem countPosts_analyze (key : Option String) (a b c : String) (o : PostOutcome) :
    countPosts (analyze_seo_data key a b c o).events ≤ 1 := by
  unfold analyze_seo_data
  split
  · decide
  · rcases o with m | ⟨status, t, cc⟩
    · simp [countPosts, isPost]
    · by_cases h200 : status = 200
      · subst h200
        rcases cc with _ | v <;> simp [countPosts, isPost]
      · simp [h200, countPosts, isPost]

/-- One `generate_recommendations` call issues at most one POST request. -/
theorem countPosts_generate (key : Option String) (a b c : String) (o : PostOutcome) :
    countPosts (generate_recommendations key a b c o).events ≤ 1 := by
  unfold generate_recommendations
  split
  · decide
  · rcases o with m | ⟨status, t, cc⟩
    · simp [countPosts, isPost]
    · by_cases h200 : status = 200
      · subst h200
        rcases cc with _ | v <;> simp [countPosts, isPost]
      · simp [h200, countPosts, isPost]

/-- The OpenRouter calls issue no GET request. -/
theorem countGets_analyze (key : Option String) (a b c : String) (o : PostOutcome) :
    countGets (analyze_seo_data key a b c o).events = 0 := by
  unfold analyze_seo_data
  split
  · decide
  · rcases o with m | ⟨status, t, cc⟩
    · simp [countGets, isGet]
    · by_cases h200 : status = 200
      · subst h200
        rcases cc with _ | v <;> simp [countGets, isGet]
      · simp [h200, countGets, isGet]

/-- The recommendations call issues no GET request. -/
theorem countGets_generate (key : Option String) (a b c : String) (o : PostOutcome) :
    countGets (generate_recommendations key a b c o).events = 0 := by
  unfold generate_recommendations
  split
  · decide
  · rcases o with m | ⟨status, t, cc⟩
    · simp [countGets, isGet]
    · by_cases h200 : status = 200
      · subst h200
        rcases cc with _ | v <;> simp [countGets, isGet]
      · simp [h200, countGets, isGet]

/-- Claim C1, counterexample.  The claim says a failure of one pipeline
stage in `main` does not prevent the other stages' results from being
produced.  In the concrete world `worldFetchFail` the fetch fails while
both OpenRouter calls would succeed, yet the run issues zero POST
requests, produces no analysis and no recommendations, and surfaces the
single blocking error — the later stages are suppressed entirely. -/
theorem C1_counterexample :
    countPosts (main_run initialSession inpEx worldFetchFail).events = 0
  ∧ (main_run initialSession inpEx worldFetchFail).state.seo_analysis = ""
  ∧ (main_run initialSession inpEx worldFetchFail).state.recommendations = ""
  ∧ (main_run initialSession inpEx worldFetchFail).messages = [Msg.error "Failed to fetch content: boom"]
  ∧ worldFetchFail.analyze = PostOutcome.response 200 "ok" (some "ANALYSIS")
  ∧ worldFetchFail.recommend = PostOutcome.response 200 "ok" (some "RECS") := by
  decide

/-- Claim C1, amended.  The pipeline in `main` is fail-fast: when the
content fetch fails, the error string is recorded in the session state and
surfaced as an error message, but the analysis and recommendations stages
are skipped entirely — no further outbound call is made and their stored
results are left unchanged. -/
theorem C1_amended_fail_fast (prev : SessionState) (inp : Inputs) (w : World) (msg : String)
    (h1 : inp.url ≠ "") (h2 : inp.organic_kw_ranks ≠ "") (h3 : inp.semrush_site_audit ≠ "")
    (h4 : inp.technical_seo_audit ≠ "") (hf : w.fetch = HttpOutcome.exn msg) :
    main_run prev inp w =
      { state := { prev with content := "Failed to fetch content: " ++ msg }
        messages := [Msg.error ("Failed to fetch content: " ++ msg)]
        events := [Event.httpGet (jina_url inp.url)]
        uncaught := none } := by
  have hp := pyStartsWith_failure msg
  simp [main_run, hf, get_jina_reader_content, h1, h2, h3, h4, hp]

/-- Claim C1, witness for the amended theorem at a concrete input. -/
theorem C1_amended_fail_fast_witness :
    main_run initialSession inpEx worldFetchFail =
      { state := { content := "Failed to fetch content: boom", seo_analysis := "", recommendations := "" }
        messages := [Msg.error ("Failed to fetch content: " ++ "boom")]
        events := [Event.httpGet (jina_url "https://example.com")]
        uncaught := none } :=
  C1_amended_fail_fast initialSession inpEx worldFetchFail "boom"
    (by decide) (by decide) (by decide) (by decide) rfl

/-- Claim C2, counterexample.  The claim says that on transport failure
the fetch result has a content field with the error description and a
summary field holding an explicit "unavailable" marker.  At a concrete
failing input, the entire result of `get_jina_reader_content` is the
single error string — it contains no "unavailable" marker anywhere, and
the code builds no summary field at all. -/
theorem C2_counterexample :
    (get_jina_reader_content "https://example.com" (HttpOutcome.exn "timeout")).1
      = "Failed to fetch content: timeout"
  ∧ mentionsMarker (get_jina_reader_content "https://example.com" (HttpOutcome.exn "timeout")).1 "unavailable"
      = false := by
  exact ⟨rfl, by decide⟩

/-- Claim C2, amended.  On transport failure (network error, non-2xx
after `raise_for_status`, timeout) the fetch does not raise to its caller:
it returns the single string `"Failed to fetch content: " + str(e)`, a
human-readable error description.  No separate summary field exists and no
"unavailable" marker is produced. -/
theorem C2_amended_fetch_failure_inband : ∀ (url msg : String),
    (get_jina_reader_content url (HttpOutcome.exn msg)).1 = "Failed to fetch content: " ++ msg := by
  intro url msg
  rfl

/-- Claim C3, counterexample.  The claim says a transport-level success
whose payload is missing the expected structured fields yields
`fetch_status = PartialOk` with missing fields set to an "unavailable"
marker rather than being silently empty.  Fetching a payload that is
entirely empty returns the empty string itself — silently empty, with no
marker — and the trace (GET then the 3-second sleep) shows this is the
transport-success path. -/
theorem C3_counterexample :
    (get_jina_reader_content "https://example.com" (HttpOutcome.success "")).1 = ""
  ∧ mentionsMarker (get_jina_reader_content "https://example.com" (HttpOutcome.success "")).1 "unavailable"
      = false
  ∧ (get_jina_reader_content "https://example.com" (HttpOutcome.success "")).2
      = [Event.httpGet (jina_url "https://example.com"), Event.sleep 3] := by
  exact ⟨rfl, by decide, rfl⟩

/-- Claim C3, amended.  On transport success the fetch returns the raw
payload text completely unchecked and unchanged: there is no structured
field validation, no `PartialOk` status, and no "unavailable" markers — a
payload missing the expected fields (even an empty one) passes through
as-is. -/
theorem C3_amended_raw_passthrough : ∀ (url text : String),
    (get_jina_reader_content url (HttpOutcome.success text)).1 = text := by
  intro url text
  rfl

/-- Claim C4, counterexample.  The claim says any two sequential calls to
the reader service are separated by at least 3 seconds regardless of
whether each call succeeded or failed.  A failed call sleeps for 0
seconds — the `time.sleep(3)` at line 69 sits inside the `try` block after
the request, so the exception path skips it — hence nothing separates a
failed call from the next one. -/
theorem C4_counterexample :
    sleepTotal (get_jina_reader_content "https://example.com" (HttpOutcome.exn "ConnectTimeout")).2 = 0
  ∧ ¬ (3 ≤ sleepTotal (get_jina_reader_content "https://example.com" (HttpOutcome.exn "ConnectTimeout")).2) := by
  exact ⟨rfl, by decide⟩

/-- Claim C4, amended.  The 3-second spacing is enforced only after
successful fetches: a call that succeeds sleeps 3 seconds before
returning, while a call that fails imposes no delay at all. -/
theorem C4_amended_spacing_only_on_success : ∀ (url text msg : String),
    sleepTotal (get_jina_reader_content url (HttpOutcome.success text)).2 = 3
  ∧ sleepTotal (get_jina_reader_content url (HttpOutcome.exn msg)).2 = 0 := by
  intro url text msg
  exact ⟨rfl, rfl⟩

/-- Claim C5, confirmed.  The reader client's transport-level retry policy
is the only retry mechanism: the `Retry` object is bounded (`total = 3`),
restricted to the idempotent methods HEAD/GET/OPTIONS, and backs off
exponentially (`backoff_factor = 1`, so each successive backoff doubles);
and no caller adds retries on top — one `get_jina_reader_content` call
issues exactly one application-level GET, each OpenRouter helper issues at
most one POST, and a whole `main` run issues at most one GET. -/
theorem C5_retry_policy :
    retry_strategy.total = 3
  ∧ retry_strategy.allowed_methods = ["HEAD", "GET", "OPTIONS"]
  ∧ retry_strategy.backoff_factor = 1
  ∧ (∀ n : Nat, get_backoff_time retry_strategy (n + 3) = 2 * get_backoff_time retry_strategy (n + 2))
  ∧ (∀ (url : String) (o : HttpOutcome), countGets (get_jina_reader_content url o).2 = 1)
  ∧ (∀ (key : Option String) (a b c : String) (o : PostOutcome),
        countPosts (analyze_seo_data key a b c o).events ≤ 1)
  ∧ (∀ (key : Option String) (a b c : String) (o : PostOutcome),
        countPosts (generate_recommendations key a b c o).events ≤ 1)
  ∧ (∀ (prev : SessionState) (inp : Inputs) (w : World),
        countGets (main_run prev inp w).events ≤ 1) := by
  refine ⟨rfl, rfl, rfl, ?_, countGets_jina, countPosts_analyze, countPosts_generate, ?_⟩
  · intro n
    simp [get_backoff_time, retry_strategy, pow_succ]
    ring
  · intro prev inp w
    simp only [main_run]
    split
    · split
      · split
        · rw [countGets_append, countGets_jina, countGets_analyze]
        · split
          · split
            · rw [countGets_append, countGets_append, countGets_jina, countGets_analyze,
                countGets_generate]
            · split
              · rw [countGets_append, countGets_append, countGets_jina, countGets_analyze,
                  countGets_generate]
              · rw [countGets_append, countGets_append, countGets_jina, countGets_analyze,
                  countGets_generate]
          · rw [countGets_append, countGets_jina, countGets_analyze]
      · rw [countGets_jina]
    · simp [countGets]

/-- Claim C6, counterexample.  The claim says external-API errors are
captured into the returned result and never thrown across the operation
boundary, in particular on transport failure.  At a concrete input where
`requests.post` raises a transport error, both `analyze_seo_data` and
`generate_recommendations` let the exception escape uncaught (there is no
try/except around the post or the payload access). -/
theorem C6_counterexample :
    (analyze_seo_data (some "sk-test") "kw" "audit" "tech"
        (PostOutcome.exn "ConnectionError: refused")).uncaught
      = some "ConnectionError: refused"
  ∧ (generate_recommendations (some "sk-test") "https://example.com" "body" "analysis"
        (PostOutcome.exn "ConnectionError: refused")).uncaught
      = some "ConnectionError: refused" := by
  exact ⟨rfl, rfl⟩

/-- Claim C6, amended.  Only a non-2xx response is captured in-band: the
operation shows an error message and returns `None` without raising.  A
transport failure from `requests.post`, and a 200 response whose payload
lacks the `choices[0].message.content` chain, both raise uncaught
exceptions across the operation boundary. -/
theorem C6_amended_error_capture (key : Option String) (a b c url pc sa text m : String)
    (status : Nat) (cc : Option String)
    (hk : truthyStr key = true) (hs : status ≠ 200) :
    analyze_seo_data key a b c (PostOutcome.response status text cc) =
      { result := none
        messages := [Msg.error ("Error from OpenRouter API: " ++ toString status ++ " - " ++ text)]
        events := [Event.httpPost openrouter_url (analyze_prompt a b c)]
        uncaught := none }
  ∧ generate_recommendations key url pc sa (PostOutcome.response status text cc) =
      { result := none
        messages := [Msg.error ("Error from OpenRouter API: " ++ toString status ++ " - " ++ text)]
        events := [Event.httpPost openrouter_url (recommend_prompt url pc sa)]
        uncaught := none }
  ∧ (analyze_seo_data key a b c (PostOutcome.exn m)).uncaught = some m
  ∧ (generate_recommendations key url pc sa (PostOutcome.exn m)).uncaught = some m
  ∧ (analyze_seo_data key a b c (PostOutcome.response 200 text none)).uncaught ≠ none
  ∧ (generate_recommendations key url pc sa (PostOutcome.response 200 text none)).uncaught ≠ none := by
  refine ⟨?_, ?_, ?_, ?_, ?_, ?_⟩ <;>
    simp [analyze_seo_data, generate_recommendations, hk, hs]

/-- Claim C6, witness for the amended theorem at a concrete input. -/
theorem C6_amended_error_capture_witness :
    analyze_seo_data (some "sk-test") "kw" "audit" "tech" (PostOutcome.response 503 "busy" none) =
      { result := none
        messages := [Msg.error ("Error from OpenRouter API: " ++ toString (503 : Nat) ++ " - " ++ "busy")]
        events := [Event.httpPost openrouter_url (analyze_prompt "kw" "audit" "tech")]
        uncaught := none }
  ∧ generate_recommendations (some "sk-test") "https://example.com" "body" "analysis"
        (PostOutcome.response 503 "busy" none) =
      { result := none
        messages := [Msg.error ("Error from OpenRouter API: " ++ toString (503 : Nat) ++ " - " ++ "busy")]
        events := [Event.httpPost openrouter_url (recommend_prompt "https://example.com" "body" "analysis")]
        uncaught := none }
  ∧ (analyze_seo_data (some "sk-test") "kw" "audit" "tech" (PostOutcome.exn "boom")).uncaught = some "boom"
  ∧ (generate_recommendations (some "sk-test") "https://example.com" "body" "analysis"
        (PostOutcome.exn "boom")).uncaught = some "boom"
  ∧ (analyze_seo_data (some "sk-test") "kw" "audit" "tech" (PostOutcome.response 200 "ok" none)).uncaught ≠ none
  ∧ (generate_recommendations (some "sk-test") "https://example.com" "body" "analysis"
        (PostOutcome.response 200 "ok" none)).uncaught ≠ none :=
  C6_amended_error_capture (some "sk-test") "kw" "audit" "tech" "https://example.com" "body" "analysis"
    "busy" "boom" 503 none (by decide) (by decide)

/-- Claim C7, confirmed.  When the user presses the button with the URL or
any of the three pasted data fields empty, the run is rejected with a
warning signal, no fetch or analysis is performed (the side-effect trace
is empty), and the stored session results are unchanged. -/
theorem C7_empty_input_rejected (prev : SessionState) (inp : Inputs) (w : World)
    (h : inp.url = "" ∨ inp.organic_kw_ranks = "" ∨ inp.semrush_site_audit = ""
      ∨ inp.technical_seo_audit = "") :
    main_run prev inp w =
      { state := prev
        messages := [Msg.warning "Please enter a URL and paste all required data"]
        events := []
        uncaught := none } := by
  have hc : (inp.url != "" && inp.organic_kw_ranks != "" && inp.semrush_site_audit != ""
      && inp.technical_seo_audit != "") = false := by
    rcases h with h | h | h | h <;> simp [h]
  simp [main_run, hc]

/-- Claim C7, witness at a concrete input with an empty URL. -/
theorem C7_empty_input_rejected_witness :
    main_run initialSession
      { url := "", organic_kw_ranks := "kw ranks", semrush_site_audit := "site audit",
        technical_seo_audit := "tech audit" }
      worldAllOk =
      { state := initialSession
        messages := [Msg.warning "Please enter a URL and paste all required data"]
        events := []
        uncaught := none } :=
  C7_empty_input_rejected initialSession
    { url := "", organic_kw_ranks := "kw ranks", semrush_site_audit := "site audit",
      technical_seo_audit := "tech audit" }
    worldAllOk (Or.inl rfl)

/-- Claim C8, counterexample.  The claim says the run's outbound calls are
dispatched concurrently, not sequentially one after another.  In two
worlds that differ only in the analysis call's response (fetch and
recommendations outcomes identical), the run issues a different number of
outbound calls: whether the recommendations request is dispatched at all
depends on the analysis response — the dispatch of one call consumes the
completed result of the previous one, which is sequential dependent
dispatch, impossible under concurrent dispatch of independent calls. -/
theorem C8_counterexample :
    countPosts (main_run initialSession inpEx worldAnalyzeFail).events = 1
  ∧ countPosts (main_run initialSession inpEx worldAllOk).events = 2
  ∧ worldAnalyzeFail.fetch = worldAllOk.fetch
  ∧ worldAnalyzeFail.recommend = worldAllOk.recommend := by
  decide

/-- Claim C8, amended.  Within one run the outbound calls are dispatched
strictly sequentially and dependently: the recommendations call (the
second POST) is dispatched only when the analysis call has already
completed with HTTP 200 and a non-empty extracted content — so a run ever
issues two POSTs only on that path. -/
theorem C8_amended_sequential_dependent (prev : SessionState) (inp : Inputs) (w : World)
    (h : 2 ≤ countPosts (main_run prev inp w).events) :
    ∃ t c, w.analyze = PostOutcome.response 200 t (some c) ∧ c ≠ "" := by
  have hpj := countPosts_jina inp.url w.fetch
  have hpa := countPosts_analyze w.apiKey inp.organic_kw_ranks inp.semrush_site_audit
    inp.technical_seo_audit w.analyze
  simp only [main_run] at h
  split at h
  · split at h
    · split at h
      · rw [countPosts_append] at h
        omega
      · split at h
        case isTrue htr =>
          obtain ⟨s, hs, hne⟩ := truthyStr_eq_true htr
          obtain ⟨t, ht⟩ := analyze_result_some _ _ _ _ _ _ hs
          exact ⟨t, s, ht, hne⟩
        case isFalse =>
          rw [countPosts_append] at h
          omega
    · rw [hpj] at h
      omega
  · simp [countPosts] at h

/-- Claim C8, witness for the amended theorem at a concrete input. -/
theorem C8_amended_sequential_dependent_witness :
    ∃ t c, worldAllOk.analyze = PostOutcome.response 200 t (some c) ∧ c ≠ "" :=
  C8_amended_sequential_dependent initialSession inpEx worldAllOk (by decide)

/-- Claim C9, confirmed.  Success and failure of the content fetch are
distinguished only in-band by a string prefix: the exception path of
`get_jina_reader_content` returns `"Failed to fetch content: " + str(e)`,
and `main` classifies any fetched content that starts with
`"Failed to fetch content"` as a failure (error shown, pipeline halted,
no OpenRouter call issued).  Consequently a page whose body begins with
that very prefix — fetched successfully, as the 3-second sleep in its
trace shows — is reported as a fetch error and the pipeline halts. -/
theorem C9_inband_failure_signaling :
    (∀ url msg : String,
        (get_jina_reader_content url (HttpOutcome.exn msg)).1 = "Failed to fetch content: " ++ msg)
  ∧ (∀ (prev : SessionState) (inp : Inputs) (w : World),
        (inp.url != "" && inp.organic_kw_ranks != "" && inp.semrush_site_audit != ""
          && inp.technical_seo_audit != "") = true →
        pyStartsWith (get_jina_reader_content inp.url w.fetch).1 failMarker = true →
        main_run prev inp w =
          { state := { prev with content := (get_jina_reader_content inp.url w.fetch).1 }
            messages := [Msg.error (get_jina_reader_content inp.url w.fetch).1]
            events := (get_jina_reader_content inp.url w.fetch).2
            uncaught := none })
  ∧ worldBodyCollision.fetch = HttpOutcome.success "Failed to fetch content: how we monitor outages"
  ∧ (main_run initialSession inpEx worldBodyCollision).messages
      = [Msg.error "Failed to fetch content: how we monitor outages"]
  ∧ countPosts (main_run initialSession inpEx worldBodyCollision).events = 0
  ∧ (main_run initialSession inpEx worldBodyCollision).events
      = [Event.httpGet (jina_url "https://example.com"), Event.sleep 3] := by
  refine ⟨fun url msg => rfl, ?_, rfl, by decide, by decide, by decide⟩
  intro prev inp w hin hm
  simp [main_run, hin, hm]

/-- Claim C9, witness instantiating the universal parts at a concrete
input (the marker-colliding successful fetch). -/
theorem C9_inband_failure_signaling_witness :
    main_run initialSession inpEx worldBodyCollision =
      { state := { content := "Failed to fetch content: how we monitor outages",
                   seo_analysis := "", recommendations := "" }
        messages := [Msg.error "Failed to fetch content: how we monitor outages"]
        events := [Event.httpGet (jina_url "https://example.com"), Event.sleep 3]
        uncaught := none } :=
  C9_inband_failure_signaling.2.1 initialSession inpEx worldBodyCollision (by decide) (by decide)

/-- Claim C10, confirmed.  When `OPENROUTER_API_KEY` is unset (`none`) or
empty, both `analyze_seo_data` and `generate_recommendations` return
`None` after showing an error message, and their side-effect trace is
empty: no HTTP request is ever issued without a configured API key. -/
theorem C10_no_call_without_key : ∀ (a b c url pc sa : String) (o : PostOutcome),
    analyze_seo_data none a b c o =
      { result := none
        messages := [Msg.error "OpenRouter API key not found. Please set the OPENROUTER_API_KEY environment variable."]
        events := []
        uncaught := none }
  ∧ analyze_seo_data (some "") a b c o =
      { result := none
        messages := [Msg.error "OpenRouter API key not found. Please set the OPENROUTER_API_KEY environment variable."]
        events := []
        uncaught := none }
  ∧ generate_recommendations none url pc sa o =
      { result := none
        messages := [Msg.error "OpenRouter API key not found. Please set the OPENROUTER_API_KEY environment variable."]
        events := []
        uncaught := none }
  ∧ generate_recommendations (some "") url pc sa o =
      { result := none
        messages := [Msg.error "OpenRouter API key not found. Please set the OPENROUTER_API_KEY environment variable."]
        events := []
        uncaught := none } := by
  intro a b c url pc sa o
  exact ⟨rfl, rfl, rfl, rfl⟩
